import Mathlib

/-!
Shallow embedding of `cloudprinting/client.py`, a thin client for the Google
Cloud Print HTTP API, together with theorems about its response
normalization and its request building for job submission.

Modelling conventions:
- JSON values are the inductive `JVal`; a decoded response body is a `JVal`.
- An HTTP response (the `requests` library's response object) is `Response`:
  its status code, its declared `Content-Type` header, the JSON decoding of
  its body when the body is valid JSON (`jsonBody = none` means `r.json()`
  would raise), and its raw body text.
- The value a Python operation produces is `Result`: a decoded JSON value, the
  raw response object passed through, Python `None`, or a raised exception
  (`exn`) propagating to the caller.
- Byte strings are `List Nat`; the filesystem and the `mimetypes` table are
  function parameters (`readFile`, `guess_type`), since both are environment
  supplied in Python.
-/

namespace Cloudprinting

/-- JSON values as decoded by Python's `json` module: objects are key/value
field lists (parsed dicts), arrays are lists. -/
inductive JVal where
  | null
  | bool (b : Bool)
  | num (n : Int)
  | str (s : String)
  | arr (elems : List JVal)
  | obj (fields : List (String × JVal))

/-- An HTTP response as seen through the `requests` response object. -/
structure Response where
  status_code : Nat
  contentType : String
  jsonBody : Option JVal
  text : String

/-- What a client operation produces: decoded JSON, the raw response object,
Python `None`, or a raised exception. -/
inductive Result where
  | val (v : JVal)
  | raw (r : Response)
  | pynone
  | exn

/-- `requests.codes.ok` is exactly 200. -/
def codes_ok : Nat := 200

/-- Python dict subscription `d[k]` on a parsed-JSON object: first matching
field (parsed dicts have unique keys). `none` models a raised `KeyError`. -/
def lookupField : List (String × JVal) → String → Option JVal
  | [], _ => none
  | (k0, v) :: rest, k => if k0 = k then some v else lookupField rest k

/-- `get_printer`: POST `/printer`; returns the raw response on a status other
than `requests.codes.ok`, otherwise `r.json()`. -/
def get_printer (r : Response) : Result :=
  if r.status_code ≠ codes_ok then Result.raw r
  else match r.jsonBody with
    | some v => Result.val v
    | none => Result.exn

/-- `delete_job`: POST `/deletejob`; `r.json() if r.status_code == requests.codes.ok else r`. -/
def delete_job (r : Response) : Result :=
  if r.status_code = codes_ok then
    match r.jsonBody with
    | some v => Result.val v
    | none => Result.exn
  else Result.raw r

/-- `list_printers`: GET `/search`; raw response on non-ok status, else `r.json()`. -/
def list_printers (r : Response) : Result :=
  if r.status_code ≠ codes_ok then Result.raw r
  else match r.jsonBody with
    | some v => Result.val v
    | none => Result.exn

/-- `list_jobs`: GET `/jobs`; raw response on non-ok status, else
`r.json()['jobs']` (a `requests` response always has a `json` attribute, so
the `json.loads(r.text)` alternative is dead code; `r.json()` decodes the
body regardless of the declared `Content-Type` header). Subscripting a
non-dict raises `TypeError`; a missing `'jobs'` key raises `KeyError`. -/
def list_jobs (r : Response) : Result :=
  if r.status_code ≠ codes_ok then Result.raw r
  else match r.jsonBody with
    | some (JVal.obj fields) =>
        match lookupField fields "jobs" with
        | some v => Result.val v
        | none => Result.exn
    | some _ => Result.exn
    | none => Result.exn

/-- The loop body of `get_job` over a Python list: `for job in jobs: if
job['id'] == id: return job`. Subscripting a non-dict element raises
`TypeError`; a dict without an `'id'` key raises `KeyError`; a non-string
`'id'` value compares unequal to the string `id` (Python `==` across types is
`False`, not an error); falling off the end of the loop returns `None`. -/
def scanJobs (id : String) : List JVal → Result
  | [] => Result.pynone
  | JVal.obj fields :: rest =>
      match lookupField fields "id" with
      | some (JVal.str s) =>
          if s = id then Result.val (JVal.obj fields) else scanJobs id rest
      | some _ => scanJobs id rest
      | none => Result.exn
  | _ :: _ => Result.exn

/-- `get_job`: `jobs = list_jobs(...)`, then `for job in jobs: if job['id'] ==
id: return job`. The Python `for` loop applies to whatever `list_jobs`
returned: a list is scanned; iterating a dict yields its keys (strings, so
subscripting raises `TypeError` unless the dict is empty and the loop body
never runs); iterating a string yields characters (same); numbers, booleans
and `None` are not iterable; iterating a raw `requests` response yields its
body in byte chunks (`TypeError` on subscript, or no iterations when the body
is empty); falling off the end returns `None`. -/
def get_job (id : String) (r : Response) : Result :=
  match list_jobs r with
  | Result.val (JVal.arr jobs) => scanJobs id jobs
  | Result.val (JVal.obj fields) =>
      if fields.isEmpty then Result.pynone else Result.exn
  | Result.val (JVal.str s) => if s.isEmpty then Result.pynone else Result.exn
  | Result.val _ => Result.exn
  | Result.raw resp => if resp.text.isEmpty then Result.pynone else Result.exn
  | Result.pynone => Result.exn
  | Result.exn => Result.exn

/-- Accumulator pass for `basename`: scan the characters, restarting the
accumulated (reversed) component at every slash. -/
def basenameAux : List Char → List Char → List Char
  | [], acc => acc.reverse
  | c :: rest, acc =>
      if c = '/' then basenameAux rest [] else basenameAux rest (c :: acc)

/-- `os.path.basename` (POSIX): everything after the last slash. -/
def basename (p : String) : String :=
  String.mk (basenameAux p.data [])

/-- JSON string escaping for the characters the client can hit (quote and
backslash); `json.dumps` escapes these with a backslash. -/
def escapeJsonChar (c : Char) : String :=
  if c = '"' then "\\\"" else if c = '\\' then "\\\\" else String.singleton c

/-- Escape a whole string for inclusion in a JSON document. -/
def escapeJson (s : String) : String :=
  String.join (s.toList.map escapeJsonChar)

mutual

/-- Python `json.dumps` with its default separators: `", "` between items and
`": "` between a key and its value. -/
def dumpJVal : JVal → String
  | JVal.null => "null"
  | JVal.bool true => "true"
  | JVal.bool false => "false"
  | JVal.num n => toString n
  | JVal.str s => "\"" ++ escapeJson s ++ "\""
  | JVal.arr elems => "[" ++ dumpArr elems ++ "]"
  | JVal.obj fields => "\x7b" ++ dumpObj fields ++ "\x7d"

/-- Serialize the comma-separated items of a JSON array. -/
def dumpArr : List JVal → String
  | [] => ""
  | [v] => dumpJVal v
  | v :: rest => dumpJVal v ++ ", " ++ dumpArr rest

/-- Serialize the comma-separated entries of a JSON object. -/
def dumpObj : List (String × JVal) → String
  | [] => ""
  | [(k, v)] => "\"" ++ escapeJson k ++ "\": " ++ dumpJVal v
  | (k, v) :: rest =>
      "\"" ++ escapeJson k ++ "\": " ++ dumpJVal v ++ ", " ++ dumpObj rest

end

/-- Python `a or b` on an optional string `a` (`None` and `""` are falsy). -/
def pyOr (a b : Option String) : Option String :=
  match a with
  | some s => if s = "" then b else some s
  | none => b

/-- The `tag` form entry: Python `if tags: data['tag'] = tags` attaches the
tag list only when it is truthy, i.e. neither `None` nor empty. -/
def tagsField (tags : Option (List String)) : Option (List String) :=
  match tags with
  | some ts => if ts.isEmpty then none else some ts
  | none => none

/-- The `content` argument of `submit_job`: an explicit `(name, file-like)`
pair (list or tuple; `read()` on the file-like yields the given bytes), or a
string (a filesystem path, or a URL when `content_type == "url"`). -/
inductive Content where
  | pair (name : String) (stream : List Nat)
  | str (s : String)

/-- The normalized content payload: bytes read into memory, or the URL string
left as is. -/
inductive Payload where
  | bytes (bs : List Nat)
  | str (s : String)

/-- The HTTP request `submit_job` hands to `requests.post` for `/submit`,
after form encoding. `contentType = none` models the absent field: `requests`
drops a data entry whose value is Python `None`. `tag` is the repeated `tag`
field, present only when `tags` is truthy (a non-empty list). Exactly one of
`contentField` (the plain `content` form field of a URL submission) and
`filePart` (the multipart `content` file part, a `(name, payload)` pair) is
set by the code. -/
structure SubmitRequest where
  printerid : String
  title : String
  contentType : Option String
  ticket : String
  tag : Option (List String)
  contentField : Option String
  filePart : Option (String × Payload)

/-- `submit_job`, request-building half. Normalizes `content` to a name and a
payload: a list/tuple pair is `(content[0], content[1].read())`; otherwise
when `content_type == "url"` the string stays the URL; otherwise the string is
a path, the name its basename and the payload the fully read file
(`readFile p = none` models `open` raising `IOError`: no request is made).
Then: `title` defaults to the name; `ticket` defaults to `[{}]` and is sent
as `json.dumps(ticket)`; `contentType` is `content_type or
mimetypes.guess_type(name)[0]`; `tag` is attached only when `tags` is truthy.
The request is a plain form POST with a `content` field when `content_type ==
"url"` and the normalized content is a string; otherwise a multipart POST
with `files = \x7b"content": (name, content)\x7d`. -/
def submit_job_request (readFile : String → Option (List Nat))
    (guess_type : String → Option String)
    (printer : String) (content : Content) (title : Option String)
    (ticket : Option JVal) (tags : Option (List String))
    (content_type : Option String) : Option SubmitRequest :=
  let norm : Option (String × Payload) :=
    match content with
    | Content.pair n stream => some (n, Payload.bytes stream)
    | Content.str s =>
        if content_type = some "url" then some (s, Payload.str s)
        else match readFile s with
          | some bs => some (basename s, Payload.bytes bs)
          | none => none
  match norm with
  | none => none
  | some (name, payload) =>
      let titleVal := title.getD name
      let ticketVal := ticket.getD (JVal.arr [JVal.obj []])
      let ctField := pyOr content_type (guess_type name)
      let tagField := tagsField tags
      match payload with
      | Payload.str s =>
          if content_type = some "url" then
            some (SubmitRequest.mk printer titleVal ctField (dumpJVal ticketVal)
              tagField (some s) none)
          else
            some (SubmitRequest.mk printer titleVal ctField (dumpJVal ticketVal)
              tagField none (some (name, Payload.str s)))
      | Payload.bytes bs =>
          some (SubmitRequest.mk printer titleVal ctField (dumpJVal ticketVal)
              tagField none (some (name, Payload.bytes bs)))

/-- `submit_job`, full: build and send the request (`none` when `open` raised
before any request was made), then `r.json() if r.status_code ==
requests.codes.ok else r` on the response `r`. -/
def submit_job (readFile : String → Option (List Nat))
    (guess_type : String → Option String)
    (printer : String) (content : Content) (title : Option String)
    (ticket : Option JVal) (tags : Option (List String))
    (content_type : Option String) (r : Response) : Option Result :=
  match submit_job_request readFile guess_type printer content title ticket tags content_type with
  | none => none
  | some _ =>
      some (if r.status_code = codes_ok then
          match r.jsonBody with
          | some v => Result.val v
          | none => Result.exn
        else Result.raw r)

/-- The Boolean test applied by the loop in `get_job` to one job entry:
the entry is a JSON object whose `'id'` field is the string `id`. -/
def matchesId (id : String) (j : JVal) : Bool :=
  match j with
  | JVal.obj fields =>
      match lookupField fields "id" with
      | some (JVal.str s) => s == id
      | _ => false
  | _ => false

/-- A well-formed `jobs` array as the remote API documents it: every entry is
a JSON object carrying an `'id'` field. On such a list the loop in `get_job`
raises no exception. -/
def WfJobs (jobs : List JVal) : Prop :=
  ∀ j ∈ jobs, ∃ fields v, j = JVal.obj fields ∧ lookupField fields "id" = some v

theorem scanJobs_cons_of_lookup (id : String) (fields : List (String × JVal))
    (v : JVal) (rest : List JVal) (hv : lookupField fields "id" = some v) :
    scanJobs id (JVal.obj fields :: rest) =
      if matchesId id (JVal.obj fields) then Result.val (JVal.obj fields)
      else scanJobs id rest := by
  cases v with
  | str s =>
      by_cases hs : s = id <;> simp [scanJobs, matchesId, hv, hs]
  | null => simp [scanJobs, matchesId, hv]
  | bool b => simp [scanJobs, matchesId, hv]
  | num n => simp [scanJobs, matchesId, hv]
  | arr es => simp [scanJobs, matchesId, hv]
  | obj fs => simp [scanJobs, matchesId, hv]

theorem scanJobs_eq_find (id : String) (jobs : List JVal) (h : WfJobs jobs) :
    scanJobs id jobs =
      match jobs.find? (matchesId id) with
      | some j => Result.val j
      | none => Result.pynone := by
  induction jobs with
  | nil => rfl
  | cons j rest ih =>
      obtain ⟨fields, v, rfl, hv⟩ := h j (List.mem_cons_self j rest)
      have hrest : WfJobs rest := fun x hx => h x (List.mem_cons_of_mem _ hx)
      rw [scanJobs_cons_of_lookup id fields v rest hv]
      by_cases hm : matchesId id (JVal.obj fields)
      · simp [hm, List.find?_cons_of_pos]
      · simp [hm, List.find?_cons_of_neg, ih hrest]

theorem scanJobs_ne_raw (id : String) (jobs : List JVal) (x : Response) :
    scanJobs id jobs ≠ Result.raw x := by
  induction jobs with
  | nil => exact fun h => Result.noConfusion h
  | cons j rest ih =>
      cases j with
      | obj fields =>
          cases hv : lookupField fields "id" with
          | none => simp [scanJobs, hv]
          | some v =>
              cases v with
              | str s => by_cases hs : s = id <;> simp [scanJobs, hv, hs, ih]
              | null => simp [scanJobs, hv, ih]
              | bool b => simp [scanJobs, hv, ih]
              | num n => simp [scanJobs, hv, ih]
              | arr es => simp [scanJobs, hv, ih]
              | obj fs => simp [scanJobs, hv, ih]
      | null => simp [scanJobs]
      | bool b => simp [scanJobs]
      | num n => simp [scanJobs]
      | str s => simp [scanJobs]
      | arr es => simp [scanJobs]

theorem list_jobs_ok (r : Response) (fields : List (String × JVal)) (v : JVal)
    (hok : r.status_code = codes_ok) (hbody : r.jsonBody = some (JVal.obj fields))
    (hjobs : lookupField fields "jobs" = some v) :
    list_jobs r = Result.val v := by
  simp [list_jobs, hok, hbody, hjobs]

theorem get_job_eq_scan (id : String) (r : Response)
    (fields : List (String × JVal)) (jobs : List JVal)
    (hok : r.status_code = codes_ok) (hbody : r.jsonBody = some (JVal.obj fields))
    (hjobs : lookupField fields "jobs" = some (JVal.arr jobs)) :
    get_job id r = scanJobs id jobs := by
  unfold get_job
  rw [list_jobs_ok r fields (JVal.arr jobs) hok hbody hjobs]

theorem list_jobs_ok_cases (r : Response) (hok : r.status_code = codes_ok) :
    (∃ v, list_jobs r = Result.val v) ∨ list_jobs r = Result.exn := by
  unfold list_jobs
  rw [hok]
  simp only [ne_eq, not_true_eq_false, if_false]
  cases hb : r.jsonBody with
  | none => exact Or.inr rfl
  | some v =>
      cases v with
      | obj fields =>
          cases hj : lookupField fields "jobs" with
          | none => exact Or.inr (by simp [hj])
          | some w => exact Or.inl ⟨w, by simp [hj]⟩
      | null => exact Or.inr rfl
      | bool b => exact Or.inr rfl
      | num n => exact Or.inr rfl
      | str s => exact Or.inr rfl
      | arr es => exact Or.inr rfl

theorem get_job_ok_ne_raw (id : String) (r : Response)
    (hok : r.status_code = codes_ok) (x : Response) :
    get_job id r ≠ Result.raw x := by
  unfold get_job
  rcases list_jobs_ok_cases r hok with ⟨v, hv⟩ | hv <;> rw [hv]
  · cases v with
    | arr jobs => exact scanJobs_ne_raw id jobs x
    | obj fields => by_cases hf : fields.isEmpty <;> simp [hf]
    | str s => by_cases hs : s.isEmpty <;> simp [hs]
    | null => simp
    | bool b => simp
    | num n => simp
  · simp

/-- What the client actually does when the HTTP status is not
`requests.codes.ok`: `get_printer`, `list_jobs`, `delete_job`,
`list_printers` and `submit_job` skip JSON decoding and return the raw
response object verbatim; `get_job`, however, does not return it — the raw
response flows into its `for` loop, which returns `None` when the failure
body is empty and raises `TypeError` otherwise. -/
def NonSuccessBehavior (r : Response) : Prop :=
  get_printer r = Result.raw r ∧
  list_jobs r = Result.raw r ∧
  delete_job r = Result.raw r ∧
  list_printers r = Result.raw r ∧
  (∀ readFile guess_type printer content title ticket tags content_type req,
      submit_job_request readFile guess_type printer content title ticket tags
        content_type = some req →
      submit_job readFile guess_type printer content title ticket tags
        content_type r = some (Result.raw r)) ∧
  (∀ id, get_job id r = if r.text.isEmpty then Result.pynone else Result.exn) ∧
  (∀ id, get_job id r ≠ Result.raw r)

/-- What the client does when the HTTP status is `requests.codes.ok`: the
returned value is the JSON-decoded body (`get_printer`, `delete_job`,
`list_printers`), the `jobs` sub-field of the decoded body (`list_jobs`), or
the matching job entry of that sub-field (`get_job`); no operation returns a
raw response object; and `list_jobs` never consults the declared
`Content-Type` header of the response. -/
def SuccessBehavior (r : Response) : Prop :=
  (∀ v, r.jsonBody = some v →
      get_printer r = Result.val v ∧ delete_job r = Result.val v ∧
      list_printers r = Result.val v) ∧
  (∀ fields v, r.jsonBody = some (JVal.obj fields) →
      lookupField fields "jobs" = some v → list_jobs r = Result.val v) ∧
  (∀ ct, list_jobs (Response.mk r.status_code ct r.jsonBody r.text) = list_jobs r) ∧
  (∀ x, get_printer r ≠ Result.raw x ∧ list_jobs r ≠ Result.raw x ∧
      delete_job r ≠ Result.raw x ∧ list_printers r ≠ Result.raw x ∧
      ∀ id, get_job id r ≠ Result.raw x) ∧
  (∀ id fields jobs, r.jsonBody = some (JVal.obj fields) →
      lookupField fields "jobs" = some (JVal.arr jobs) → WfJobs jobs →
      (∃ j ∈ jobs, get_job id r = Result.val j) ∨ get_job id r = Result.pynone)

/-- A sample failed response: HTTP 500 with a non-JSON, non-empty error
body. -/
def badResp : Response := Response.mk 500 "text/html" none "Server Error"

/-- The `jobs` array of the sample successful `/jobs` response. -/
def okJobs : List JVal :=
  [JVal.obj [("id", JVal.str "a"), ("title", JVal.str "t")],
   JVal.obj [("id", JVal.str "b")]]

/-- The decoded body fields of the sample successful `/jobs` response. -/
def okFields : List (String × JVal) := [("jobs", JVal.arr okJobs)]

/-- A sample successful response: HTTP 200 whose JSON body holds `okJobs`
under the `jobs` key, served with a `text/plain` content type as the real
`/jobs` endpoint does. -/
def okResp : Response :=
  Response.mk 200 "text/plain" (some (JVal.obj okFields)) "ignored"

/-- The sample job list is well formed: each entry is an object with an
`'id'` field. -/
theorem okJobs_wf : WfJobs okJobs := by
  intro j hj
  simp only [okJobs, List.mem_cons, List.mem_singleton, List.not_mem_nil, or_false] at hj
  rcases hj with rfl | rfl
  · exact ⟨_, JVal.str "a", rfl, rfl⟩
  · exact ⟨_, JVal.str "b", rfl, rfl⟩

/-- C1 counterexample: the claim includes `get_job` among the operations, but
on a non-success status `get_job` does not return the underlying response
object — `list_jobs` hands it the raw response, whose iteration raises
`TypeError` (here: a 500 response with a non-empty body). -/
theorem get_job_nonsuccess_not_raw_cex :
    badResp.status_code ≠ codes_ok ∧
    get_job "j1" badResp = Result.exn ∧
    get_job "j1" badResp ≠ Result.raw badResp := by
  refine ⟨by decide, rfl, ?_⟩
  intro h
  have h2 : Result.exn = Result.raw badResp := h
  exact Result.noConfusion h2

/-- C1 (amended): on every HTTP response whose status differs from
`requests.codes.ok`, the operations `get_printer`, `list_jobs`, `delete_job`,
`list_printers` and `submit_job` skip JSON decoding and return the raw
response object verbatim; `get_job` alone does not — it iterates the raw
response returned by `list_jobs`, yielding `None` on an empty failure body
and a `TypeError` otherwise, and never returns the response object. -/
theorem nonsuccess_raw_passthrough (r : Response) (h : r.status_code ≠ codes_ok) :
    NonSuccessBehavior r := by
  have hlj : list_jobs r = Result.raw r := by simp [list_jobs, h]
  have hgj : ∀ id : String,
      get_job id r = if r.text.isEmpty then Result.pynone else Result.exn := by
    intro id
    unfold get_job
    rw [hlj]
  refine ⟨by simp [get_printer, h], hlj, by simp [delete_job, h],
    by simp [list_printers, h], ?_, hgj, ?_⟩
  · intro readFile guess_type printer content title ticket tags content_type req hreq
    unfold submit_job
    rw [hreq]
    simp [h]
  · intro id hcontra
    rw [hgj id] at hcontra
    by_cases ht : r.text.isEmpty <;> simp [ht] at hcontra

/-- Witness for the amended C1 at the concrete failed response `badResp`. -/
theorem nonsuccess_raw_passthrough_witness :
    badResp.status_code ≠ codes_ok ∧ NonSuccessBehavior badResp :=
  ⟨by decide, nonsuccess_raw_passthrough badResp (by decide)⟩

/-- C2: on every HTTP response with the success status `requests.codes.ok`,
each operation returns the JSON-decoded body or its documented sub-field
(`jobs` for `list_jobs`, the matching job entry or `None` for `get_job`),
never the raw response object; and `list_jobs` decodes without consulting
the declared content type. -/
theorem success_returns_decoded (r : Response) (h : r.status_code = codes_ok) :
    SuccessBehavior r := by
  refine ⟨?_, ?_, ?_, ?_, ?_⟩
  · intro v hv
    refine ⟨?_, ?_, ?_⟩ <;> simp [get_printer, delete_job, list_printers, h, hv]
  · intro fields v hb hj
    exact list_jobs_ok r fields v h hb hj
  · intro ct
    simp [list_jobs, h]
  · intro x
    have hne : ∀ v : Option JVal,
        (match v with
          | some w => Result.val w
          | none => Result.exn) ≠ Result.raw x := by
      intro v
      cases v <;> simp
    refine ⟨?_, ?_, ?_, ?_, fun id => get_job_ok_ne_raw id r h x⟩
    · simp only [get_printer, h]
      simpa using hne r.jsonBody
    · intro hcontra
      rcases list_jobs_ok_cases r h with ⟨v, hv⟩ | hv <;>
        rw [hv] at hcontra <;> exact Result.noConfusion hcontra
    · simp only [delete_job, h, if_pos]
      simpa using hne r.jsonBody
    · simp only [list_printers, h]
      simpa using hne r.jsonBody
  · intro id fields jobs hb hj hwf
    rw [get_job_eq_scan id r fields jobs h hb hj, scanJobs_eq_find id jobs hwf]
    cases hf : jobs.find? (matchesId id) with
    | some j => exact Or.inl ⟨j, List.mem_of_find?_eq_some hf, rfl⟩
    | none => exact Or.inr rfl

/-- Witness for C2 at the concrete successful response `okResp`. -/
theorem success_returns_decoded_witness :
    okResp.status_code = codes_ok ∧ SuccessBehavior okResp :=
  ⟨rfl, success_returns_decoded okResp rfl⟩

/-- C7: for every job id and every successful, well-formed `list_jobs`
result, `get_job` returns an entry of the jobs array whose `'id'` field is
the requested id, and returns Python `None` when no entry's id matches. -/
theorem get_job_matching_entry (id : String) (r : Response)
    (fields : List (String × JVal)) (jobs : List JVal)
    (hok : r.status_code = codes_ok)
    (hbody : r.jsonBody = some (JVal.obj fields))
    (hjobs : lookupField fields "jobs" = some (JVal.arr jobs))
    (hwf : WfJobs jobs) :
    (∃ j ∈ jobs, get_job id r = Result.val j ∧ matchesId id j = true) ∨
    (get_job id r = Result.pynone ∧ ∀ j ∈ jobs, matchesId id j = false) := by
  rw [get_job_eq_scan id r fields jobs hok hbody hjobs, scanJobs_eq_find id jobs hwf]
  cases hf : jobs.find? (matchesId id) with
  | some j =>
      exact Or.inl ⟨j, List.mem_of_find?_eq_some hf, rfl, List.find?_some hf⟩
  | none =>
      refine Or.inr ⟨rfl, fun j hj => ?_⟩
      simpa using List.find?_eq_none.mp hf j hj

/-- Witness for C7 at the sample successful response, requesting id "a". -/
theorem get_job_matching_entry_witness :
    (okResp.status_code = codes_ok ∧ WfJobs okJobs) ∧
    ((∃ j ∈ okJobs, get_job "a" okResp = Result.val j ∧ matchesId "a" j = true) ∨
     (get_job "a" okResp = Result.pynone ∧ ∀ j ∈ okJobs, matchesId "a" j = false)) :=
  ⟨⟨rfl, okJobs_wf⟩,
    get_job_matching_entry "a" okResp okFields okJobs rfl rfl rfl okJobs_wf⟩

/-- C10: when a successful, well-formed `list_jobs` result has two or more
entries whose `'id'` field equals the requested id, `get_job` returns the
first matching entry in list order (the one `List.find?` selects). -/
theorem get_job_first_of_duplicates (id : String) (r : Response)
    (fields : List (String × JVal)) (jobs : List JVal) (j : JVal)
    (hok : r.status_code = codes_ok)
    (hbody : r.jsonBody = some (JVal.obj fields))
    (hjobs : lookupField fields "jobs" = some (JVal.arr jobs))
    (hwf : WfJobs jobs)
    (hdup : 2 ≤ (jobs.filter (matchesId id)).length)
    (hfirst : jobs.find? (matchesId id) = some j) :
    get_job id r = Result.val j := by
  rw [get_job_eq_scan id r fields jobs hok hbody hjobs, scanJobs_eq_find id jobs hwf,
    hfirst]

/-- The sample jobs array with a duplicated id "a". -/
def dupJobs : List JVal :=
  [JVal.obj [("id", JVal.str "a"), ("title", JVal.str "first")],
   JVal.obj [("id", JVal.str "a"), ("title", JVal.str "second")]]

/-- The decoded body fields of the duplicated-id sample. -/
def dupFields : List (String × JVal) := [("jobs", JVal.arr dupJobs)]

/-- A successful response whose jobs array holds two entries with id "a". -/
def dupResp : Response :=
  Response.mk 200 "application/json" (some (JVal.obj dupFields)) "ignored"

/-- The duplicated-id sample is well formed. -/
theorem dupJobs_wf : WfJobs dupJobs := by
  intro j hj
  simp only [dupJobs, List.mem_cons, List.mem_singleton, List.not_mem_nil, or_false] at hj
  rcases hj with rfl | rfl
  · exact ⟨_, JVal.str "a", rfl, rfl⟩
  · exact ⟨_, JVal.str "a", rfl, rfl⟩

/-- Witness for C10 at the duplicated-id sample: `get_job` returns the first
of the two entries with id "a". -/
theorem get_job_first_of_duplicates_witness :
    (dupResp.status_code = codes_ok ∧ WfJobs dupJobs ∧
      2 ≤ (dupJobs.filter (matchesId "a")).length ∧
      dupJobs.find? (matchesId "a") =
        some (JVal.obj [("id", JVal.str "a"), ("title", JVal.str "first")])) ∧
    get_job "a" dupResp =
      Result.val (JVal.obj [("id", JVal.str "a"), ("title", JVal.str "first")]) :=
  ⟨⟨rfl, dupJobs_wf, by decide, rfl⟩,
    get_job_first_of_duplicates "a" dupResp dupFields dupJobs _ rfl rfl rfl
      dupJobs_wf (by decide) rfl⟩

/-- The default ticket `[{}]`, as serialized by `json.dumps`. -/
theorem dump_default_ticket : dumpJVal (JVal.arr [JVal.obj []]) = "[\x7b\x7d]" := rfl

theorem submit_request_pair (readFile : String → Option (List Nat))
    (guess_type : String → Option String) (printer : String)
    (n : String) (stream : List Nat) (title : Option String)
    (ticket : Option JVal) (tags : Option (List String))
    (content_type : Option String) :
    submit_job_request readFile guess_type printer (Content.pair n stream)
        title ticket tags content_type =
      some (SubmitRequest.mk printer (title.getD n)
        (pyOr content_type (guess_type n))
        (dumpJVal (ticket.getD (JVal.arr [JVal.obj []])))
        (tagsField tags) none (some (n, Payload.bytes stream))) := rfl

theorem submit_request_url (readFile : String → Option (List Nat))
    (guess_type : String → Option String) (printer : String) (s : String)
    (title : Option String) (ticket : Option JVal) (tags : Option (List String)) :
    submit_job_request readFile guess_type printer (Content.str s)
        title ticket tags (some "url") =
      some (SubmitRequest.mk printer (title.getD s)
        (pyOr (some "url") (guess_type s))
        (dumpJVal (ticket.getD (JVal.arr [JVal.obj []])))
        (tagsField tags) (some s) none) := rfl

theorem submit_request_path (readFile : String → Option (List Nat))
    (guess_type : String → Option String) (printer : String) (s : String)
    (title : Option String) (ticket : Option JVal) (tags : Option (List String))
    (content_type : Option String) (hct : content_type ≠ some "url") :
    submit_job_request readFile guess_type printer (Content.str s)
        title ticket tags content_type =
      match readFile s with
      | some bs =>
          some (SubmitRequest.mk printer (title.getD (basename s))
            (pyOr content_type (guess_type (basename s)))
            (dumpJVal (ticket.getD (JVal.arr [JVal.obj []])))
            (tagsField tags) none (some (basename s, Payload.bytes bs)))
      | none => none := by
  cases hf : readFile s <;> simp [submit_job_request, hct, hf]

/-- The dichotomy C3 states for a built request: a URL marked string is sent
as a plain `content` form field with no file part; any other content is a
multipart submission whose `content` file part carries the payload. -/
def FormVsMultipart (content : Content) (ct : Option String)
    (req : SubmitRequest) : Prop :=
  (∀ s, content = Content.str s → ct = some "url" →
      req.contentField = some s ∧ req.filePart = none) ∧
  ((∀ s, content = Content.str s → ct ≠ some "url") →
      req.contentField = none ∧ ∃ name payload, req.filePart = some (name, payload))

/-- C3: when `content_type = "url"` and the content is a string, the content
is sent as a plain `content` form field and no file part is attached; for
every other content the request is multipart with the content as a file part
named `content`. -/
theorem submit_form_vs_multipart (readFile : String → Option (List Nat))
    (guess_type : String → Option String) (printer : String) (content : Content)
    (title : Option String) (ticket : Option JVal) (tags : Option (List String))
    (content_type : Option String) (req : SubmitRequest)
    (h : submit_job_request readFile guess_type printer content title ticket tags
      content_type = some req) :
    FormVsMultipart content content_type req := by
  cases content with
  | pair n stream =>
      rw [submit_request_pair] at h
      obtain rfl := Option.some.inj h
      exact ⟨fun s hs => Content.noConfusion hs, fun _ => ⟨rfl, _, _, rfl⟩⟩
  | str s =>
      by_cases hct : content_type = some "url"
      · subst hct
        rw [submit_request_url] at h
        obtain rfl := Option.some.inj h
        refine ⟨fun s' hs' _ => ?_, fun hno => absurd rfl (hno s rfl)⟩
        obtain rfl : s = s' := by injection hs'
        exact ⟨rfl, rfl⟩
      · rw [submit_request_path readFile guess_type printer s title ticket tags
          content_type hct] at h
        cases hf : readFile s with
        | some bs =>
            rw [hf] at h
            obtain rfl := Option.some.inj h
            exact ⟨fun s' _ hurl => absurd hurl hct, fun _ => ⟨rfl, _, _, rfl⟩⟩
        | none => rw [hf] at h; exact Option.noConfusion h

/-- A filesystem with no readable files. -/
def noFile : String → Option (List Nat) := fun _ => none

/-- A mimetypes table that resolves nothing. -/
def noGuess : String → Option String := fun _ => none

/-- The request built for the sample URL submission of the C3 witness. -/
def urlReq : SubmitRequest :=
  SubmitRequest.mk "p" "http://e/x.pdf" (some "url") "[\x7b\x7d]" none
    (some "http://e/x.pdf") none

/-- Witness for C3 at a concrete URL submission. -/
theorem submit_form_vs_multipart_witness :
    (submit_job_request noFile noGuess "p" (Content.str "http://e/x.pdf") none none
        none (some "url") = some urlReq) ∧
    FormVsMultipart (Content.str "http://e/x.pdf") (some "url") urlReq :=
  ⟨rfl, submit_form_vs_multipart noFile noGuess "p" (Content.str "http://e/x.pdf")
    none none none (some "url") urlReq rfl⟩

/-- C4: when no ticket is supplied, the `ticket` form field sent is
`json.dumps([{}])`, i.e. exactly the string `[{}]`. -/
theorem submit_default_ticket (readFile : String → Option (List Nat))
    (guess_type : String → Option String) (printer : String) (content : Content)
    (title : Option String) (tags : Option (List String))
    (content_type : Option String) (req : SubmitRequest)
    (h : submit_job_request readFile guess_type printer content title none tags
      content_type = some req) :
    req.ticket = "[\x7b\x7d]" := by
  cases content with
  | pair n stream =>
      rw [submit_request_pair] at h
      obtain rfl := Option.some.inj h
      rfl
  | str s =>
      by_cases hct : content_type = some "url"
      · subst hct
        rw [submit_request_url] at h
        obtain rfl := Option.some.inj h
        rfl
      · rw [submit_request_path readFile guess_type printer s title none tags
          content_type hct] at h
        cases hf : readFile s with
        | some bs =>
            rw [hf] at h
            obtain rfl := Option.some.inj h
            rfl
        | none => rw [hf] at h; exact Option.noConfusion h

/-- The request built for the sample pair submission of the C4 witness. -/
def pairReq : SubmitRequest :=
  SubmitRequest.mk "p" "a.txt" none "[\x7b\x7d]" none none
    (some ("a.txt", Payload.bytes [1]))

/-- Witness for C4 at a concrete submission with no ticket. -/
theorem submit_default_ticket_witness :
    (submit_job_request noFile noGuess "p" (Content.pair "a.txt" [1]) none none
        none none = some pairReq) ∧
    pairReq.ticket = "[\x7b\x7d]" :=
  ⟨rfl, submit_default_ticket noFile noGuess "p" (Content.pair "a.txt" [1]) none
    none none pairReq rfl⟩

/-- C5: when the content is a filesystem path (a string not marked as a URL),
the file at that path is read fully into memory as the file part's payload
and the part's name is the path's basename; no plain content field is sent. -/
theorem submit_path_reads_file (readFile : String → Option (List Nat))
    (guess_type : String → Option String) (printer : String) (s : String)
    (title : Option String) (ticket : Option JVal) (tags : Option (List String))
    (content_type : Option String) (bs : List Nat) (req : SubmitRequest)
    (hct : content_type ≠ some "url") (hf : readFile s = some bs)
    (h : submit_job_request readFile guess_type printer (Content.str s) title
      ticket tags content_type = some req) :
    req.filePart = some (basename s, Payload.bytes bs) ∧ req.contentField = none := by
  rw [submit_request_path readFile guess_type printer s title ticket tags
    content_type hct, hf] at h
  obtain rfl := Option.some.inj h
  exact ⟨rfl, rfl⟩

/-- A one-file filesystem holding the bytes of `docs/a.txt`. -/
def fs1 : String → Option (List Nat) :=
  fun p => if p = "docs/a.txt" then some [104, 105] else none

/-- The request built for the sample path submission of the C5 witness. -/
def pathReq : SubmitRequest :=
  SubmitRequest.mk "p" "a.txt" none "[\x7b\x7d]" none none
    (some ("a.txt", Payload.bytes [104, 105]))

/-- Witness for C5 at a concrete path submission. -/
theorem submit_path_reads_file_witness :
    ((none : Option String) ≠ some "url" ∧ fs1 "docs/a.txt" = some [104, 105] ∧
      submit_job_request fs1 noGuess "p" (Content.str "docs/a.txt") none none
        none none = some pathReq) ∧
    (pathReq.filePart = some (basename "docs/a.txt", Payload.bytes [104, 105]) ∧
      pathReq.contentField = none) :=
  ⟨⟨by decide, rfl, rfl⟩,
    submit_path_reads_file fs1 noGuess "p" "docs/a.txt" none none none none
      [104, 105] pathReq (by decide) rfl rfl⟩

/-- A mimetypes table resolving the extension of `doc.pdf`. -/
def guessPdf : String → Option String :=
  fun n => if n = "doc.pdf" then some "application/pdf" else none

/-- C6 counterexample: with a caller-supplied empty `content_type`, the code
sends the guessed MIME type, not the caller's value — `content_type or
mimetypes.guess_type(name)[0]` uses Python truthiness, and `""` is falsy. -/
theorem submit_content_type_empty_cex :
    (submit_job_request noFile guessPdf "p" (Content.pair "doc.pdf" [37]) none none
        none (some "")).map SubmitRequest.contentType =
      some (some "application/pdf") ∧
    (some "application/pdf" : Option String) ≠ some "" := by
  exact ⟨rfl, by decide⟩

/-- The contentType policy the code implements, stated per content shape
(amended C6): a caller-supplied non-empty `content_type` is sent as is; a
`None` or empty (falsy) `content_type` falls back to the MIME type guessed
from the derived name — the pair's given name, or the path's basename —
and the field is simply absent when that guess is unresolvable (`requests`
drops the `None`-valued entry). -/
def ContentTypePolicy (guess_type : String → Option String) (content : Content)
    (ct : Option String) (req : SubmitRequest) : Prop :=
  (∀ c, ct = some c → c ≠ "" → req.contentType = some c) ∧
  (∀ n stream, content = Content.pair n stream → (ct = none ∨ ct = some "") →
      req.contentType = guess_type n) ∧
  (∀ s, content = Content.str s → (ct = none ∨ ct = some "") →
      req.contentType = guess_type (basename s))

theorem pyOr_eq_of_truthy (b : Option String) (c : String) (hc : c ≠ "") :
    pyOr (some c) b = some c := by
  simp [pyOr, hc]

theorem pyOr_falsy (b : Option String) (a : Option String)
    (ha : a = none ∨ a = some "") : pyOr a b = b := by
  rcases ha with rfl | rfl <;> simp [pyOr]

/-- C6 (amended): the contentType field sent follows Python truthiness — the
caller-supplied `content_type` when given and non-empty, otherwise the MIME
type guessed from the derived name (the field being absent when the guess is
unresolvable); an empty caller-supplied `content_type` is ignored in favor of
the guess. -/
theorem submit_content_type_field (readFile : String → Option (List Nat))
    (guess_type : String → Option String) (printer : String) (content : Content)
    (title : Option String) (ticket : Option JVal) (tags : Option (List String))
    (content_type : Option String) (req : SubmitRequest)
    (h : submit_job_request readFile guess_type printer content title ticket tags
      content_type = some req) :
    ContentTypePolicy guess_type content content_type req := by
  cases content with
  | pair n stream =>
      rw [submit_request_pair] at h
      obtain rfl := Option.some.inj h
      refine ⟨fun c hc hne => ?_, fun n' stream' hn hfalsy => ?_, fun s hs _ => ?_⟩
      · subst hc; exact pyOr_eq_of_truthy _ c hne
      · obtain rfl : n = n' := by injection hn
        exact pyOr_falsy _ _ hfalsy
      · exact Content.noConfusion hs
  | str s =>
      by_cases hct : content_type = some "url"
      · subst hct
        rw [submit_request_url] at h
        obtain rfl := Option.some.inj h
        refine ⟨fun c hc hne => ?_, fun n' stream' hn _ => Content.noConfusion hn,
          fun s' hs' hfalsy => ?_⟩
        · obtain rfl : "url" = c := by injection hc
          exact pyOr_eq_of_truthy (guess_type s) "url" hne
        · rcases hfalsy with hfalsy | hfalsy <;> simp at hfalsy
      · rw [submit_request_path readFile guess_type printer s title ticket tags
          content_type hct] at h
        cases hf : readFile s with
        | some bs =>
            rw [hf] at h
            obtain rfl := Option.some.inj h
            refine ⟨fun c hc hne => ?_, fun n' stream' hn _ => Content.noConfusion hn,
              fun s' hs' hfalsy => ?_⟩
            · subst hc; exact pyOr_eq_of_truthy _ c hne
            · obtain rfl : s = s' := by injection hs'
              exact pyOr_falsy _ _ hfalsy
        | none => rw [hf] at h; exact Option.noConfusion h

/-- The request built for the empty-content_type submission of the C6
witness. -/
def ctReq : SubmitRequest :=
  SubmitRequest.mk "p" "doc.pdf" (some "application/pdf") "[\x7b\x7d]" none none
    (some ("doc.pdf", Payload.bytes [37]))

/-- Witness for the amended C6 at the empty-content_type submission. -/
theorem submit_content_type_field_witness :
    (submit_job_request noFile guessPdf "p" (Content.pair "doc.pdf" [37]) none none
        none (some "") = some ctReq) ∧
    ContentTypePolicy guessPdf (Content.pair "doc.pdf" [37]) (some "") ctReq :=
  ⟨rfl, submit_content_type_field noFile guessPdf "p" (Content.pair "doc.pdf" [37])
    none none none (some "") ctReq rfl⟩

/-- The default-title policy C8 states, per content shape: with no title
supplied, the `title` form field equals the derived name — the pair's name,
the URL string itself, or the path's basename. -/
def TitleDefault (content : Content) (ct : Option String)
    (req : SubmitRequest) : Prop :=
  (∀ n stream, content = Content.pair n stream → req.title = n) ∧
  (∀ s, content = Content.str s → ct = some "url" → req.title = s) ∧
  (∀ s, content = Content.str s → ct ≠ some "url" → req.title = basename s)

/-- C8: when no title is supplied, the `title` form field sent equals the
name derived from the content. -/
theorem submit_default_title (readFile : String → Option (List Nat))
    (guess_type : String → Option String) (printer : String) (content : Content)
    (ticket : Option JVal) (tags : Option (List String))
    (content_type : Option String) (req : SubmitRequest)
    (h : submit_job_request readFile guess_type printer content none ticket tags
      content_type = some req) :
    TitleDefault content content_type req := by
  cases content with
  | pair n stream =>
      rw [submit_request_pair] at h
      obtain rfl := Option.some.inj h
      refine ⟨fun n' stream' hn => ?_, fun s hs _ => Content.noConfusion hs,
        fun s hs _ => Content.noConfusion hs⟩
      obtain rfl : n = n' := by injection hn
      rfl
  | str s =>
      by_cases hct : content_type = some "url"
      · subst hct
        rw [submit_request_url] at h
        obtain rfl := Option.some.inj h
        refine ⟨fun n' stream' hn => Content.noConfusion hn, fun s' hs' _ => ?_,
          fun s' hs' hne => absurd rfl hne⟩
        obtain rfl : s = s' := by injection hs'
        rfl
      · rw [submit_request_path readFile guess_type printer s none ticket tags
          content_type hct] at h
        cases hf : readFile s with
        | some bs =>
            rw [hf] at h
            obtain rfl := Option.some.inj h
            refine ⟨fun n' stream' hn => Content.noConfusion hn,
              fun s' hs' hurl => absurd hurl hct, fun s' hs' _ => ?_⟩
            obtain rfl : s = s' := by injection hs'
            rfl
        | none => rw [hf] at h; exact Option.noConfusion h

/-- Witness for C8 at the concrete path submission: the default title is the
basename of the path. -/
theorem submit_default_title_witness :
    (submit_job_request fs1 noGuess "p" (Content.str "docs/a.txt") none none
        none none = some pathReq) ∧
    TitleDefault (Content.str "docs/a.txt") none pathReq :=
  ⟨rfl, submit_default_title fs1 noGuess "p" (Content.str "docs/a.txt") none
    none none pathReq rfl⟩

/-- C9: a `(name, file-like)` pair takes the first normalization branch even
when `content_type = "url"`: the stream is read into bytes and the request is
multipart with the bytes as the `content` file part, not a plain `content`
form field. -/
theorem submit_pair_overrides_url (readFile : String → Option (List Nat))
    (guess_type : String → Option String) (printer : String) (n : String)
    (stream : List Nat) (title : Option String) (ticket : Option JVal)
    (tags : Option (List String)) (req : SubmitRequest)
    (h : submit_job_request readFile guess_type printer (Content.pair n stream)
      title ticket tags (some "url") = some req) :
    req.filePart = some (n, Payload.bytes stream) ∧ req.contentField = none := by
  rw [submit_request_pair] at h
  obtain rfl := Option.some.inj h
  exact ⟨rfl, rfl⟩

/-- The request built for the pair-with-url submission of the C9 witness. -/
def pairUrlReq : SubmitRequest :=
  SubmitRequest.mk "p" "n.txt" (some "url") "[\x7b\x7d]" none none
    (some ("n.txt", Payload.bytes [7]))

/-- Witness for C9 at a concrete pair submission marked `content_type = "url"`. -/
theorem submit_pair_overrides_url_witness :
    (submit_job_request noFile noGuess "p" (Content.pair "n.txt" [7]) none none
        none (some "url") = some pairUrlReq) ∧
    (pairUrlReq.filePart = some ("n.txt", Payload.bytes [7]) ∧
      pairUrlReq.contentField = none) :=
  ⟨rfl, submit_pair_overrides_url noFile noGuess "p" "n.txt" [7] none none none
    pairUrlReq rfl⟩

end Cloudprinting
